import Mathlib

/-!
Verification development for the fantasy-basketball matchup predictor
(`predictor.py` / `config.py`).  The definitions below are a shallow
embedding of the projection engine: Python floats are modelled as `ℚ`,
Python dict lookups that fall through falsy values (`d.get(k) or d.get(k2)
or default`) are modelled as `Option ℚ` where `none` stands for a missing,
falsy, or unparseable entry, and dates are modelled as integers (one unit
per calendar day).  External data (rosters, schedules, accumulated stats)
appears as explicit function arguments, mirroring the values the Python
code fetches from its collaborators before the pure computation starts.
-/

namespace FantasyPredictor

/-- The nine fantasy categories (`config.CATEGORIES` /
`FantasyPredictor.STAT_CATEGORIES`). -/
inductive Cat
  | fg   -- FG%  (stat id 5)
  | ft   -- FT%  (stat id 8)
  | tpm  -- 3PTM (stat id 10)
  | pts  -- PTS  (stat id 12)
  | reb  -- REB  (stat id 15)
  | ast  -- AST  (stat id 16)
  | stl  -- STL  (stat id 17)
  | blk  -- BLK  (stat id 18)
  | to   -- TO   (stat id 19)
deriving DecidableEq, Repr

/-- `STAT_CATEGORIES.keys()` in iteration order (predictor.py lines 193-203). -/
def allCats : List Cat := [.fg, .ft, .tpm, .pts, .reb, .ast, .stl, .blk, .to]

/-- `COUNTING_STATS` (predictor.py line 206). -/
def COUNTING_STATS : List Cat := [.tpm, .pts, .reb, .ast, .stl, .blk, .to]

/-- `NEGATIVE_CATEGORIES` (config.py line 42): categories where lower wins. -/
def NEGATIVE_CATEGORIES : List Cat := [.to]

/-- `INACTIVE_POSITIONS` (predictor.py line 67). -/
def INACTIVE_POSITIONS : List String := ["IL", "IL+"]

/-- `BENCH_POSITION` (predictor.py line 64). -/
def BENCH_POSITION : String := "BN"

/-- `MAX_DAILY_STARTERS` (predictor.py line 70). -/
def MAX_DAILY_STARTERS : Nat := 10

/-- `INJURY_COUNT` (predictor.py lines 75-84): statuses counted with a
probability multiplier. -/
def INJURY_COUNT : List (String × ℚ) :=
  [("Probable", 0.85), ("P", 0.85),
   ("Questionable", 0.45), ("Q", 0.45),
   ("GTD", 0.45), ("DTD", 0.65),
   ("", 1), ("Healthy", 1)]

/-- `INJURY_SKIP` (predictor.py lines 87-96): statuses never counted. -/
def INJURY_SKIP : List (String × ℚ) :=
  [("Doubtful", 0), ("D", 0), ("Out", 0), ("O", 0),
   ("INJ", 0), ("SUSP", 0), ("IL", 0), ("IL+", 0)]

/-- ASCII whitespace recognized by Python `str.strip()`. -/
def isSpaceChar (c : Char) : Bool :=
  c = ' ' || c = '\t' || c = '\n' || c = '\r' || c = '\x0b' || c = '\x0c'

/-- `status.strip()`: drop leading and trailing whitespace. -/
def pyStrip (s : String) : String :=
  ⟨((s.data.dropWhile isSpaceChar).reverse.dropWhile isSpaceChar).reverse⟩

/-- `get_injury_factor` (predictor.py lines 146-165).  The Python code
strips the status string, returns 0 for `INJURY_SKIP` members, the table
value for `INJURY_COUNT` members, and defaults unknown statuses to 1. -/
def get_injury_factor (status : String) : ℚ :=
  let s := pyStrip status
  if (INJURY_SKIP.lookup s).isSome then 0
  else
    match INJURY_COUNT.lookup s with
    | some v => v
    | none => 1

/-- Per-category winner marker used by `_compare_projections`. -/
inductive Winner
  | myTeam
  | opponent
  | tie
deriving DecidableEq, Repr

/-- Sign flip for lower-is-better categories (predictor.py lines 1537-1539). -/
def negateIfNegative (c : Cat) (v : ℚ) : ℚ :=
  if c ∈ NEGATIVE_CATEGORIES then -v else v

/-- Winner of one category (predictor.py lines 1541-1549). -/
def categoryWinner (c : Cat) (myVal oppVal : ℚ) : Winner :=
  let m := negateIfNegative c myVal
  let o := negateIfNegative c oppVal
  if m > o then .myTeam
  else if o > m then .opponent
  else .tie

/-- Confidence of one category (predictor.py lines 1551-1557). -/
def categoryConfidence (c : Cat) (myVal oppVal : ℚ) : ℚ :=
  let m := negateIfNegative c myVal
  let o := negateIfNegative c oppVal
  let total := |m| + |o|
  if total > 0 then min (|m - o| / total) 1 else 0.5

/-- One step of the win-tally loop in `_compare_projections`
(predictor.py lines 1541-1547). -/
def scoreStep (myT oppT : Cat → ℚ) (s : Nat × Nat) (c : Cat) : Nat × Nat :=
  match categoryWinner c (myT c) (oppT c) with
  | .myTeam => (s.1 + 1, s.2)
  | .opponent => (s.1, s.2 + 1)
  | .tie => s

/-- `_compare_projections` (predictor.py lines 1524-1559): per-category
winners, the (my_wins, opp_wins) tally accumulated over `STAT_CATEGORIES`,
and per-category confidences.  A projection's missing category reads as 0
(`total_projected.get(cat, 0)`), so totals are modelled as total maps. -/
def compare_projections (myT oppT : Cat → ℚ) :
    (Cat → Winner) × (Nat × Nat) × (Cat → ℚ) :=
  (fun c => categoryWinner c (myT c) (oppT c),
   allCats.foldl (scoreStep myT oppT) (0, 0),
   fun c => categoryConfidence c (myT c) (oppT c))

/-- Dates modelled as integers (one unit per calendar day); the Python
code compares `datetime.date` values with `<` and `>=` only. -/
abbrev Day := Int

/-- Per-player statistic map, after the `d.get(str_id) or d.get(int_id)`
fall-through chains of `calculate_daily_stats`: `none` stands for an
absent, falsy, or unparseable entry, `some q` for a truthy numeric one.
Field `counting` covers stat ids 10/12/15/16/17/18/19; `gp` is stat id 0,
`fga`/`fgm`/`fta`/`ftm` are ids 3/4/6/7 and `fgPct`/`ftPct` ids 5/8.
`isAverage` is the `_is_average` flag. -/
structure AvgStats where
  gp : Option ℚ
  counting : Cat → Option ℚ
  fga : Option ℚ
  fgm : Option ℚ
  fta : Option ℚ
  ftm : Option ℚ
  fgPct : Option ℚ
  ftPct : Option ℚ
  isAverage : Bool

/-- Effective games-played divisor (predictor.py lines 1073-1079): missing,
falsy, unparseable, or non-positive entries are replaced by 1. -/
def effGamesPlayed (s : AvgStats) : ℚ :=
  match s.gp with
  | some g => if g ≤ 0 then 1 else g
  | none => 1

/-- `1 if is_average else games_played`, the divisor used whenever a raw
stat value is converted to a per-game value. -/
def statDivisor (s : AvgStats) : ℚ :=
  if s.isAverage then 1 else effGamesPlayed s

/-- Per-game value of one counting stat (predictor.py lines 1084-1095). -/
def perGameStat (s : AvgStats) (c : Cat) : ℚ :=
  ((s.counting c).getD 0) / statDivisor s

/-- Decimal normalization of a percentage (predictor.py lines 1135-1136,
1151-1152): values above 1 are divided by 100. -/
def normalizePct (q : ℚ) : ℚ := if q > 1 then q / 100 else q

/-- Estimated makes/attempts accumulator used by the simulator. -/
structure FgData where
  fgm : ℚ
  fga : ℚ
  ftm : ℚ
  fta : ℚ
deriving DecidableEq, Repr

def addFgData (f g : FgData) : FgData :=
  ⟨f.fgm + g.fgm, f.fga + g.fga, f.ftm + g.ftm, f.fta + g.fta⟩

def scaleFgData (f : FgData) (k : ℚ) : FgData :=
  ⟨f.fgm * k, f.fga * k, f.ftm * k, f.fta * k⟩

/-- One counted game's worth of FG/FT makes and attempts for one player
(predictor.py lines 1099-1156).  Actual per-game makes/attempts (stat ids
3/4 and 6/7) are used when both members of a pair are available; otherwise
attempts are estimated from per-game points (points/2.1 for field goals,
points/6 for free throws, with fixed fallbacks 8 and 3 when points are not
positive) and makes as attempts times the decimal-normalized percentage
(defaulting to 0.45 / 0.75). -/
def playerFgData (s : AvgStats) : FgData :=
  let d := statDivisor s
  let fgPair : ℚ × ℚ :=
    match s.fga, s.fgm with
    | some a, some m => (m / d, a / d)
    | _, _ =>
      let pts := perGameStat s .pts
      let pct := normalizePct ((s.fgPct).getD 0.45)
      let a := if pts > 0 then pts / 2.1 else 8
      (a * pct, a)
  let ftPair : ℚ × ℚ :=
    match s.fta, s.ftm with
    | some a, some m => (m / d, a / d)
    | _, _ =>
      let pts := perGameStat s .pts
      let pct := normalizePct ((s.ftPct).getD 0.75)
      let a := if pts > 0 then pts / 6 else 3
      (a * pct, a)
  ⟨fgPair.1, fgPair.2, ftPair.1, ftPair.2⟩

/-- One entry of `player_info` (predictor.py lines 930-946).  The
`injury_factor` field already carries the forced 0 for IL-slot players
applied at lines 917-918. -/
structure Player where
  player_key : String
  team_abbr : String
  normalized_team : String
  roster_position : String
  injury_factor : ℚ
  avg_stats : AvgStats
  acquisition_date : Option Day

/-- One raw roster entry before `player_info` is built: the roster slot,
raw injury status string, stat map, and optional acquisition date. -/
structure RosterEntry where
  player_key : String
  team_abbr : String
  normalized_team : String
  roster_position : String
  status : String
  avg_stats : AvgStats
  acquisition_date : Option Day

/-- Building one `player_info` entry (predictor.py lines 904-946): the
injury factor comes from `get_injury_factor` and is forced to 0 for
players in an IL/IL+ slot. -/
def mkPlayerInfo (e : RosterEntry) : Player :=
  { player_key := e.player_key
    team_abbr := e.team_abbr
    normalized_team := e.normalized_team
    roster_position := e.roster_position
    injury_factor :=
      if e.roster_position ∈ INACTIVE_POSITIONS then 0
      else get_injury_factor e.status
    avg_stats := e.avg_stats
    acquisition_date := e.acquisition_date }

/-- The IL-history test of `calculate_daily_stats` (predictor.py lines
1000-1013): a player is on the inactive list on `day` iff a placement date
exists with `placement <= day` and, when a removal date exists,
`day < removal`. -/
def wasOnIlOn (ilPlacements ilRemovals : String → Option Day)
    (key : String) (day : Day) : Bool :=
  match ilPlacements key with
  | none => false
  | some placement =>
    if placement ≤ day then
      match ilRemovals key with
      | some removal => decide (day < removal)
      | none => true
    else false

/-- The per-player exclusion chain of `calculate_daily_stats`
(predictor.py lines 996-1036): IL-history, zero injury factor (unless an
IL-slot player on a past day), IL slot on future days, acquisition date,
and the day's playing-teams set. -/
def passesDayFilters (includeIl : Bool) (ilP ilR : String → Option Day)
    (teamsPlaying : List String) (day : Day) (p : Player) : Bool :=
  !(wasOnIlOn ilP ilR p.player_key day) &&
  !(decide (p.injury_factor = 0) &&
    !(includeIl && decide (p.roster_position ∈ INACTIVE_POSITIONS))) &&
  !(!includeIl && decide (p.roster_position ∈ INACTIVE_POSITIONS)) &&
  (match p.acquisition_date with
   | some acq => decide (acq ≤ day)
   | none => true) &&
  (decide (p.team_abbr ∈ teamsPlaying) ||
   decide (p.normalized_team ∈ teamsPlaying))

/-- `get_full_nba_schedule()` restricted to one request: `none` models a
date absent from the map, `some []` a date whose game dict is empty. -/
abbrev Schedule := Day → Option (List String)

/-- The players whose stats count on one day (predictor.py lines 975-1049):
days absent from the schedule, or with an empty playing-team set, yield no
counted players; otherwise the eligible non-bench players followed by the
eligible bench players are truncated to `MAX_DAILY_STARTERS`. -/
def dayPlayersToCount (includeIl : Bool) (ilP ilR : String → Option Day)
    (sched : Schedule) (players : List Player) (day : Day) : List Player :=
  match sched day with
  | none => []
  | some teamsPlaying =>
    if teamsPlaying.isEmpty then []
    else
      let elig := players.filter (fun p =>
        passesDayFilters includeIl ilP ilR teamsPlaying day p &&
        !(p.roster_position == BENCH_POSITION))
      let bench := players.filter (fun p =>
        passesDayFilters includeIl ilP ilR teamsPlaying day p &&
        (p.roster_position == BENCH_POSITION))
      (elig ++ bench).take MAX_DAILY_STARTERS

/-- FG/FT contribution of one counted player-day, scaled by the injury
factor (predictor.py lines 1158-1161). -/
def playerFgContrib (p : Player) : FgData :=
  scaleFgData (playerFgData p.avg_stats) p.injury_factor

/-- Counting-stat contribution of a day's counted players (predictor.py
lines 1084-1097); the map is consulted only at counting categories. -/
def countedCountingStats (counted : List Player) (c : Cat) : ℚ :=
  (counted.map (fun p => perGameStat p.avg_stats c * p.injury_factor)).sum

/-- FG/FT contribution of a day's counted players. -/
def countedFgData (counted : List Player) : FgData :=
  ⟨(counted.map (fun p => (playerFgContrib p).fgm)).sum,
   (counted.map (fun p => (playerFgContrib p).fga)).sum,
   (counted.map (fun p => (playerFgContrib p).ftm)).sum,
   (counted.map (fun p => (playerFgContrib p).fta)).sum⟩

/-- The three accumulators returned by `calculate_daily_stats`. -/
structure DailyStatsResult where
  stats : Cat → ℚ
  fgData : FgData
  gamesCounted : Nat

/-- `calculate_daily_stats` (predictor.py lines 949-1163): the running
accumulators after the loop over `days_list`, written as per-day sums
(the imperative loop only ever adds each day's contribution onto
accumulators that start at zero). -/
def calculate_daily_stats (includeIl : Bool) (ilP ilR : String → Option Day)
    (sched : Schedule) (players : List Player) (daysList : List Day) :
    DailyStatsResult :=
  { stats := fun c => (daysList.map (fun d =>
      countedCountingStats (dayPlayersToCount includeIl ilP ilR sched players d) c)).sum
    fgData :=
      ⟨(daysList.map (fun d =>
          (countedFgData (dayPlayersToCount includeIl ilP ilR sched players d)).fgm)).sum,
       (daysList.map (fun d =>
          (countedFgData (dayPlayersToCount includeIl ilP ilR sched players d)).fga)).sum,
       (daysList.map (fun d =>
          (countedFgData (dayPlayersToCount includeIl ilP ilR sched players d)).ftm)).sum,
       (daysList.map (fun d =>
          (countedFgData (dayPlayersToCount includeIl ilP ilR sched players d)).fta)).sum⟩
    gamesCounted := (daysList.map (fun d =>
      (dayPlayersToCount includeIl ilP ilR sched players d).length)).sum }

/-- Accumulated team stats from the platform matchup, after the
extraction at predictor.py lines 1259-1282: `counting c` is the parsed
value of the counting stat (0 when absent or falsy), and `fgPctRaw` /
`ftPctRaw` are the results of `actual_stats.get('5', 0) or
actual_stats.get(5, 0)` (so 0 when absent or falsy). -/
structure ActualStats where
  counting : Cat → ℚ
  fgPctRaw : ℚ
  ftPctRaw : ℚ

/-- Past-day makes/attempts used in the blend (predictor.py lines
1284-1297): estimated from the actual accumulated points and percentage
when both are usable, otherwise taken from the past-day simulation. -/
def estPastShooting (a : ActualStats) (pastFg : FgData) : FgData :=
  let pts := a.counting .pts
  let fgPair : ℚ × ℚ :=
    if a.fgPctRaw ≠ 0 ∧ pts > 0 then
      let fgaE := pts / 2.1
      (fgaE * (if a.fgPctRaw > 1 then a.fgPctRaw / 100 else a.fgPctRaw), fgaE)
    else (pastFg.fgm, pastFg.fga)
  let ftPair : ℚ × ℚ :=
    if a.ftPctRaw ≠ 0 ∧ pts > 0 then
      let ftaE := pts / 6
      (ftaE * (if a.ftPctRaw > 1 then a.ftPctRaw / 100 else a.ftPctRaw), ftaE)
    else (pastFg.ftm, pastFg.fta)
  ⟨fgPair.1, fgPair.2, ftPair.1, ftPair.2⟩

/-- The remaining-day scale factor (predictor.py lines 1242-1245): 1
unless a manual override is supplied and at least one remaining game was
counted. -/
def remainingScale (override : Option ℚ) (remCount : Nat) : ℚ :=
  match override with
  | some o => if remCount > 0 then o / remCount else 1
  | none => 1

/-- Blended counting totals before the final table is assembled
(predictor.py lines 1253-1276 and 1305-1308): actual accumulated totals
plus (possibly scaled) remaining projections when actuals exist and at
least one past day has elapsed; simulated past plus remaining otherwise. -/
def blendedCounting (actual : Option ActualStats) (pastDaysLen : Nat)
    (pastStats remStats : Cat → ℚ) (scale : ℚ) (c : Cat) : ℚ :=
  match actual with
  | some a =>
    if pastDaysLen > 0 then a.counting c + remStats c * scale
    else pastStats c + remStats c * scale
  | none => pastStats c + remStats c * scale

/-- Blended makes/attempts `daily_fg_data` (predictor.py lines 1299-1314). -/
def blendedShooting (actual : Option ActualStats) (pastDaysLen : Nat)
    (pastFg remFg : FgData) (scale : ℚ) : FgData :=
  match actual with
  | some a =>
    if pastDaysLen > 0 then addFgData (estPastShooting a pastFg) (scaleFgData remFg scale)
    else addFgData pastFg (scaleFgData remFg scale)
  | none => addFgData pastFg (scaleFgData remFg scale)

/-- Assembly of `final_totals` (predictor.py lines 1351-1363): counting
categories read the blended counting totals; FG% and FT% are rebuilt from
the combined makes/attempts, with 0 whenever the attempt denominator is
not positive. -/
def finalTotals (daily : Cat → ℚ) (fg : FgData) (c : Cat) : ℚ :=
  if c ∈ COUNTING_STATS then daily c
  else if c = .fg ∧ fg.fga > 0 then fg.fgm / fg.fga * 100
  else if c = .ft ∧ fg.fta > 0 then fg.ftm / fg.fta * 100
  else 0

/-- The pair returned to callers from `_project_team_with_actuals` that
the claims are about: the 9 category totals and the remaining-games
counter (player display projections are omitted). -/
structure TeamProjectionResult where
  totals : Cat → ℚ
  remainingGames : Nat

/-- `_project_team_with_actuals` (predictor.py lines 811-1373) after the
week has been split into past and remaining days: run the day-by-day
simulator on both buckets (IL players included only for past days), scale
the remaining projections when a manual override is supplied, blend with
the actual accumulated stats, and assemble the final category table. -/
def projectTeamWithActuals (roster : List RosterEntry) (sched : Schedule)
    (ilP ilR : String → Option Day) (pastDays remainingDays : List Day)
    (actual : Option ActualStats) (override : Option ℚ) :
    TeamProjectionResult :=
  let players := roster.map mkPlayerInfo
  let past := calculate_daily_stats true ilP ilR sched players pastDays
  let rem := calculate_daily_stats false ilP ilR sched players remainingDays
  let scale := remainingScale override rem.gamesCounted
  { totals := finalTotals
      (blendedCounting actual pastDays.length past.stats rem.stats scale)
      (blendedShooting actual pastDays.length past.fgData rem.fgData scale)
    remainingGames := rem.gamesCounted }

/-- The failure taxonomy of `predict_matchup`: the dedicated
`PlayoffWeekError` (predictor.py lines 50-55) against generic failures. -/
inductive PredictorError
  | playoffWeek (week : Nat)
  | generic (msg : String)
deriving DecidableEq, Repr

/-- The matchup record returned by the platform: the opponent is absent
exactly when the pairing has not been determined, and each side carries
its accumulated week stats.  (`none` also models a falsy matchup dict.) -/
structure MatchupData where
  opponent : Option String
  myStats : Option ActualStats
  oppStats : Option ActualStats

/-- The head of `predict_matchup` (predictor.py lines 213-431) with the
external fetches supplied as arguments: a missing own team is a generic
failure; a falsy matchup or a matchup without an opponent raises
`PlayoffWeekError(week or 0)`; otherwise both teams are projected and
compared. -/
def predict_matchup (myTeamKey : Option String) (matchup : Option MatchupData)
    (week : Option Nat) (myRoster oppRoster : List RosterEntry)
    (sched : Schedule) (ilP ilR : String → Option Day)
    (pastDays remainingDays : List Day) :
    Except PredictorError
      (TeamProjectionResult × TeamProjectionResult ×
       ((Cat → Winner) × (Nat × Nat) × (Cat → ℚ))) :=
  match myTeamKey with
  | none => .error (.generic "Could not find your team in this league")
  | some _ =>
    match matchup with
    | none => .error (.playoffWeek (week.getD 0))
    | some m =>
      match m.opponent with
      | none => .error (.playoffWeek (week.getD 0))
      | some _ =>
        let myProj := projectTeamWithActuals myRoster sched ilP ilR
          pastDays remainingDays m.myStats none
        let oppProj := projectTeamWithActuals oppRoster sched ilP ilR
          pastDays remainingDays m.oppStats none
        .ok (myProj, oppProj, compare_projections myProj.totals oppProj.totals)

/-! ## Helper lemmas -/

theorem lookup_values_bounded (l : List (String × ℚ))
    (hb : ∀ p ∈ l, 0 ≤ p.2 ∧ p.2 ≤ 1) {s : String} {v : ℚ}
    (h : l.lookup s = some v) : 0 ≤ v ∧ v ≤ 1 := by
  induction l with
  | nil => simp [List.lookup] at h
  | cons kv tl ih =>
    rw [List.lookup] at h
    rcases hkv : (s == kv.1) with _ | _
    · rw [hkv] at h
      exact ih (fun p hp => hb p (List.mem_cons_of_mem _ hp)) h
    · rw [hkv] at h
      cases h
      exact hb kv (List.mem_cons_self _ _)

theorem negateIfNegative_eq_zero (c : Cat) (v : ℚ) :
    negateIfNegative c v = 0 ↔ v = 0 := by
  unfold negateIfNegative
  split <;> simp

theorem categoryWinner_iff (c : Cat) (mv ov : ℚ) :
    (categoryWinner c mv ov = .myTeam ↔
      negateIfNegative c ov < negateIfNegative c mv) ∧
    (categoryWinner c mv ov = .opponent ↔
      negateIfNegative c mv < negateIfNegative c ov) ∧
    (categoryWinner c mv ov = .tie ↔
      negateIfNegative c mv = negateIfNegative c ov) := by
  unfold categoryWinner
  set m := negateIfNegative c mv with hm
  set o := negateIfNegative c ov with ho
  by_cases h1 : o < m
  · rw [if_pos h1]
    exact ⟨iff_of_true rfl h1,
      iff_of_false (by simp) (fun h => absurd h1 (lt_asymm h)),
      iff_of_false (by simp) (fun h => absurd h1 (by rw [h]; exact lt_irrefl o))⟩
  · rw [if_neg h1]
    by_cases h2 : m < o
    · rw [if_pos h2]
      exact ⟨iff_of_false (by simp) h1,
        iff_of_true rfl h2,
        iff_of_false (by simp) (fun h => absurd h2 (by rw [h]; exact lt_irrefl o))⟩
    · rw [if_neg h2]
      have heq : m = o := le_antisymm (not_lt.mp h1) (not_lt.mp h2)
      exact ⟨iff_of_false (by simp) (fun h => absurd heq (ne_of_gt h)),
        iff_of_false (by simp) (fun h => absurd heq (ne_of_lt h)),
        iff_of_true rfl heq⟩

theorem scoreFoldl_eq (myT oppT : Cat → ℚ) (l : List Cat) (s : Nat × Nat) :
    l.foldl (scoreStep myT oppT) s =
      (s.1 + (l.filter (fun c =>
        categoryWinner c (myT c) (oppT c) = Winner.myTeam)).length,
       s.2 + (l.filter (fun c =>
        categoryWinner c (myT c) (oppT c) = Winner.opponent)).length) := by
  induction l generalizing s with
  | nil => simp
  | cons c tl ih =>
    rw [List.foldl_cons, ih]
    cases hw : categoryWinner c (myT c) (oppT c) <;>
      simp [scoreStep, List.filter_cons, hw] <;> omega

theorem filter_winner_partition (l : List Cat) (f : Cat → Winner) :
    (l.filter (fun c => f c = Winner.myTeam)).length +
    (l.filter (fun c => f c = Winner.opponent)).length +
    (l.filter (fun c => f c = Winner.tie)).length = l.length := by
  induction l with
  | nil => simp
  | cons c tl ih =>
    cases hw : f c <;> simp [List.filter_cons, hw] <;> omega

theorem categoryConfidence_spec (c : Cat) (mv ov : ℚ) :
    (¬(mv = 0 ∧ ov = 0) →
      categoryConfidence c mv ov =
        min (|negateIfNegative c mv - negateIfNegative c ov| /
             (|negateIfNegative c mv| + |negateIfNegative c ov|)) 1) ∧
    ((mv = 0 ∧ ov = 0) → categoryConfidence c mv ov = 0.5) ∧
    0 ≤ categoryConfidence c mv ov ∧ categoryConfidence c mv ov ≤ 1 := by
  unfold categoryConfidence
  by_cases h : |negateIfNegative c mv| + |negateIfNegative c ov| > 0
  · rw [if_pos h]
    refine ⟨fun _ => rfl, fun hz => ?_,
      le_min (div_nonneg (abs_nonneg _) h.le) zero_le_one, min_le_right _ _⟩
    exfalso
    have hm0 : negateIfNegative c mv = 0 :=
      (negateIfNegative_eq_zero c mv).mpr hz.1
    have ho0 : negateIfNegative c ov = 0 :=
      (negateIfNegative_eq_zero c ov).mpr hz.2
    rw [hm0, ho0] at h
    simp at h
  · rw [if_neg h]
    have hmn : (0 : ℚ) ≤ |negateIfNegative c mv| := abs_nonneg _
    have hon : (0 : ℚ) ≤ |negateIfNegative c ov| := abs_nonneg _
    have hle := not_lt.mp h
    have hm0 : |negateIfNegative c mv| = 0 := by linarith
    have ho0 : |negateIfNegative c ov| = 0 := by linarith
    refine ⟨fun hne => absurd ⟨?_, ?_⟩ hne, fun _ => rfl, by norm_num, by norm_num⟩
    · exact (negateIfNegative_eq_zero c mv).mp (abs_eq_zero.mp hm0)
    · exact (negateIfNegative_eq_zero c ov).mp (abs_eq_zero.mp ho0)

/-! ## Claim theorems -/

/-- C7, counterexample: the injury table holds only the abbreviated keys
`DTD`, `GTD`, `SUSP`, so the long-form strings `Day-to-Day`,
`Game-Time-Decision` and `Suspended` fall to the unrecognized-status
default 1.0 instead of 0.65, 0.45 and 0.0 as claimed. -/
theorem injury_longform_counterexample :
    get_injury_factor "Day-to-Day" = 1 ∧
    get_injury_factor "Game-Time-Decision" = 1 ∧
    get_injury_factor "Suspended" = 1 ∧
    (1 : ℚ) ≠ 0.65 ∧ (1 : ℚ) ≠ 0.45 ∧ (1 : ℚ) ≠ 0 := by
  refine ⟨rfl, rfl, rfl, ?_, ?_, ?_⟩ <;> norm_num

/-- C7, amended: `get_injury_factor` realizes the fixed table on the keys
the code actually holds — abbreviated and long-form keys are present for
Out/Doubtful/Questionable/Probable/Healthy, but Day-to-Day,
Game-Time-Decision, Suspended and the injured-list variants are recognized
only through their abbreviations (DTD, GTD, SUSP, INJ, IL, IL+); their
long-form strings take the unrecognized default 1.0.  Every returned value
lies in [0, 1]. -/
theorem injury_table_amended :
    get_injury_factor "Out" = 0 ∧ get_injury_factor "O" = 0 ∧
    get_injury_factor "Doubtful" = 0 ∧ get_injury_factor "D" = 0 ∧
    get_injury_factor "SUSP" = 0 ∧ get_injury_factor "INJ" = 0 ∧
    get_injury_factor "IL" = 0 ∧ get_injury_factor "IL+" = 0 ∧
    get_injury_factor "Probable" = 0.85 ∧ get_injury_factor "P" = 0.85 ∧
    get_injury_factor "Questionable" = 0.45 ∧ get_injury_factor "Q" = 0.45 ∧
    get_injury_factor "GTD" = 0.45 ∧ get_injury_factor "DTD" = 0.65 ∧
    get_injury_factor "" = 1 ∧ get_injury_factor "Healthy" = 1 ∧
    get_injury_factor "Day-to-Day" = 1 ∧
    get_injury_factor "Game-Time-Decision" = 1 ∧
    get_injury_factor "Suspended" = 1 ∧
    ∀ s : String, 0 ≤ get_injury_factor s ∧ get_injury_factor s ≤ 1 := by
  refine ⟨rfl, rfl, rfl, rfl, rfl, rfl, rfl, rfl, rfl, rfl,
    rfl, rfl, rfl, rfl, rfl, rfl, rfl, rfl, rfl, ?_⟩
  intro s
  unfold get_injury_factor
  by_cases hskip : (INJURY_SKIP.lookup (pyStrip s)).isSome
  · rw [if_pos hskip]
    norm_num
  · rw [if_neg hskip]
    cases h : INJURY_COUNT.lookup (pyStrip s) with
    | none => norm_num
    | some v =>
      exact lookup_values_bounded INJURY_COUNT
        (by intro p hp; fin_cases hp <;> norm_num) h

/-- C3: on any single day, in either mode, the number of counted
player-games — the exact per-day increment added to the `games_counted`
tally by `calculate_daily_stats` — never exceeds the fixed daily cap
`MAX_DAILY_STARTERS = 10`, for every roster, schedule and IL history. -/
theorem daily_cap_ten (includeIl : Bool) (ilP ilR : String → Option Day)
    (sched : Schedule) (players : List Player) (day : Day)
    (daysList : List Day) :
    (dayPlayersToCount includeIl ilP ilR sched players day).length ≤
      MAX_DAILY_STARTERS ∧
    MAX_DAILY_STARTERS = 10 ∧
    (calculate_daily_stats includeIl ilP ilR sched players daysList).gamesCounted =
      (daysList.map (fun d =>
        (dayPlayersToCount includeIl ilP ilR sched players d).length)).sum := by
  refine ⟨?_, rfl, rfl⟩
  unfold dayPlayersToCount
  cases h : sched day with
  | none => simp
  | some teams =>
    by_cases hte : teams.isEmpty
    · simp [hte]
    · simp only [hte, Bool.false_eq_true, if_false]
      exact List.length_take_le _ _

/-- C4: `_compare_projections` is a total function; per category it first
negates both values when the category is in `NEGATIVE_CATEGORIES`
(turnovers), declares the side with the strictly greater post-negation
value the winner, declares a tie exactly on equality, and its score pair
counts exactly the categories each side won, ties counting toward
neither. -/
theorem comparator_winners_and_score (myT oppT : Cat → ℚ) :
    (∀ c : Cat,
      ((compare_projections myT oppT).1 c = .myTeam ↔
        negateIfNegative c (oppT c) < negateIfNegative c (myT c)) ∧
      ((compare_projections myT oppT).1 c = .opponent ↔
        negateIfNegative c (myT c) < negateIfNegative c (oppT c)) ∧
      ((compare_projections myT oppT).1 c = .tie ↔
        negateIfNegative c (myT c) = negateIfNegative c (oppT c))) ∧
    (compare_projections myT oppT).2.1 =
      ((allCats.filter (fun c =>
          (compare_projections myT oppT).1 c = Winner.myTeam)).length,
       (allCats.filter (fun c =>
          (compare_projections myT oppT).1 c = Winner.opponent)).length) ∧
    (compare_projections myT oppT).2.1.1 +
      (compare_projections myT oppT).2.1.2 +
      (allCats.filter (fun c =>
        (compare_projections myT oppT).1 c = Winner.tie)).length =
      allCats.length := by
  have hwin : (compare_projections myT oppT).1 =
      fun c => categoryWinner c (myT c) (oppT c) := rfl
  have hscore : (compare_projections myT oppT).2.1 =
      allCats.foldl (scoreStep myT oppT) (0, 0) := rfl
  rw [hwin, hscore, scoreFoldl_eq]
  refine ⟨fun c => categoryWinner_iff c (myT c) (oppT c), by simp, ?_⟩
  simpa using filter_winner_partition allCats
    (fun c => categoryWinner c (myT c) (oppT c))

/-- C5: the per-category confidence equals
`min (|a - b| / (|a| + |b|)) 1` over the post-negation values whenever the
two values are not both zero, equals exactly 0.5 when both are zero, and
always lies in [0, 1]. -/
theorem comparator_confidence_spec (myT oppT : Cat → ℚ) (c : Cat) :
    (¬(myT c = 0 ∧ oppT c = 0) →
      (compare_projections myT oppT).2.2 c =
        min (|negateIfNegative c (myT c) - negateIfNegative c (oppT c)| /
             (|negateIfNegative c (myT c)| + |negateIfNegative c (oppT c)|)) 1) ∧
    ((myT c = 0 ∧ oppT c = 0) → (compare_projections myT oppT).2.2 c = 0.5) ∧
    0 ≤ (compare_projections myT oppT).2.2 c ∧
    (compare_projections myT oppT).2.2 c ≤ 1 := by
  have hconf : (compare_projections myT oppT).2.2 c =
      categoryConfidence c (myT c) (oppT c) := rfl
  rw [hconf]
  exact categoryConfidence_spec c (myT c) (oppT c)

/-- C6: a day with no schedule entry, or a schedule entry with an empty
playing-team set, contributes zero games and zero stats to every
accumulator of `calculate_daily_stats`; the computation is total (no
error) and the surrounding days are processed unchanged. -/
theorem unknown_schedule_day_skipped (includeIl : Bool)
    (ilP ilR : String → Option Day) (sched : Schedule) (players : List Player)
    (pre post : List Day) (day : Day)
    (h : sched day = none ∨ sched day = some []) :
    calculate_daily_stats includeIl ilP ilR sched players (pre ++ day :: post) =
      calculate_daily_stats includeIl ilP ilR sched players (pre ++ post) := by
  have hempty : dayPlayersToCount includeIl ilP ilR sched players day = [] := by
    rcases h with h | h <;> simp [dayPlayersToCount, h]
  unfold calculate_daily_stats
  simp only [DailyStatsResult.mk.injEq, FgData.mk.injEq]
  refine ⟨funext fun c => ?_, ⟨?_, ?_, ?_, ?_⟩, ?_⟩ <;>
    simp [List.map_append, List.sum_append, hempty, countedCountingStats,
      countedFgData]

/-- C8: a player on the inactive list on a given day is never among that
day's counted players, in both modes: in any mode when the IL history says
the player was on the IL on that day (placement on or before the day and,
when a removal date exists, the day strictly before it), and in
future/current-day mode whenever the player occupies an IL/IL+ slot. -/
theorem il_player_never_counted (includeIl : Bool)
    (ilP ilR : String → Option Day) (sched : Schedule) (players : List Player)
    (day : Day) (p : Player)
    (h : (∃ placement, ilP p.player_key = some placement ∧ placement ≤ day ∧
            ∀ removal, ilR p.player_key = some removal → day < removal) ∨
         (includeIl = false ∧ p.roster_position ∈ INACTIVE_POSITIONS)) :
    p ∉ dayPlayersToCount includeIl ilP ilR sched players day := by
  intro hmem
  rcases hs : sched day with _ | teams
  · simp only [dayPlayersToCount, hs] at hmem
    exact List.not_mem_nil p hmem
  · simp only [dayPlayersToCount, hs] at hmem
    by_cases hte : teams.isEmpty = true
    · rw [if_pos hte] at hmem
      exact List.not_mem_nil p hmem
    · rw [if_neg hte] at hmem
      have hmem2 := List.take_subset _ _ hmem
      have hpass : passesDayFilters includeIl ilP ilR teams day p = true := by
        rcases List.mem_append.mp hmem2 with hf | hf <;>
        · have hp := List.of_mem_filter hf
          simp only [Bool.and_eq_true] at hp
          exact hp.1
      rcases h with ⟨pl, hpl, hle, hrm⟩ | ⟨hmode, hpos⟩
      · have hil : wasOnIlOn ilP ilR p.player_key day = true := by
          simp only [wasOnIlOn, hpl]
          rw [if_pos hle]
          cases hr : ilR p.player_key with
          | none => simp [hr]
          | some rm =>
            simp only [hr]
            exact decide_eq_true (hrm rm hr)
        simp [passesDayFilters, hil] at hpass
      · subst hmode
        simp [passesDayFilters, hpos] at hpass

/-- C1: with accumulated actual stats present and at least one elapsed
past day, every counting-category final total is exactly the actual
accumulated value plus the remaining-day simulated value — the past-day
simulated counting totals are discarded — for every roster, stat map,
schedule, and IL history (no manual remaining-games override). -/
theorem actuals_override_past_counting (roster : List RosterEntry)
    (sched : Schedule) (ilP ilR : String → Option Day)
    (pastDays remainingDays : List Day) (a : ActualStats) (c : Cat)
    (hpast : pastDays ≠ []) (hc : c ∈ COUNTING_STATS) :
    (projectTeamWithActuals roster sched ilP ilR pastDays remainingDays
        (some a) none).totals c =
      a.counting c +
        (calculate_daily_stats false ilP ilR sched (roster.map mkPlayerInfo)
          remainingDays).stats c := by
  have hlen : 0 < pastDays.length := List.length_pos.mpr hpast
  unfold projectTeamWithActuals
  simp only [remainingScale, finalTotals, blendedCounting, if_pos hc,
    if_pos hlen, mul_one]

/-- The combined `daily_fg_data` of the blend when no manual override is
supplied (predictor.py lines 1299-1314): past-day makes/attempts
(actual-derived when actuals exist and past days elapsed, simulated
otherwise) plus remaining-day simulated makes/attempts. -/
def combinedShooting (roster : List RosterEntry) (sched : Schedule)
    (ilP ilR : String → Option Day) (pastDays remainingDays : List Day)
    (actual : Option ActualStats) : FgData :=
  blendedShooting actual pastDays.length
    (calculate_daily_stats true ilP ilR sched (roster.map mkPlayerInfo)
      pastDays).fgData
    (calculate_daily_stats false ilP ilR sched (roster.map mkPlayerInfo)
      remainingDays).fgData 1

theorem scaleFgData_one (f : FgData) : scaleFgData f 1 = f := by
  cases f
  simp [scaleFgData]

theorem finalTotals_fg_cases (daily : Cat → ℚ) (fg : FgData) :
    (fg.fga > 0 → finalTotals daily fg .fg = fg.fgm / fg.fga * 100) ∧
    (fg.fga = 0 → finalTotals daily fg .fg = 0) ∧
    (fg.fta > 0 → finalTotals daily fg .ft = fg.ftm / fg.fta * 100) ∧
    (fg.fta = 0 → finalTotals daily fg .ft = 0) := by
  unfold finalTotals
  refine ⟨fun h => ?_, fun h => ?_, fun h => ?_, fun h => ?_⟩
  · rw [if_neg (by decide), if_pos ⟨rfl, h⟩]
  · rw [if_neg (by decide), if_neg (by simp [h]), if_neg (by simp)]
  · rw [if_neg (by decide), if_neg (by simp), if_pos ⟨rfl, h⟩]
  · rw [if_neg (by decide), if_neg (by simp), if_neg (by simp [h])]

/-- C2: each percentage category of the final team projection equals
combined makes over combined attempts times 100 — the combined data being
the past-day (actual-derived or simulated) makes/attempts plus the
remaining-day simulated makes/attempts — and equals 0 whenever the
combined attempt denominator is 0; the value is rebuilt from makes and
attempts, never averaged from per-side percentages. -/
theorem percentage_from_combined_makes_attempts (roster : List RosterEntry)
    (sched : Schedule) (ilP ilR : String → Option Day)
    (pastDays remainingDays : List Day) (actual : Option ActualStats) :
    ((combinedShooting roster sched ilP ilR pastDays remainingDays actual).fga > 0 →
      (projectTeamWithActuals roster sched ilP ilR pastDays remainingDays
          actual none).totals .fg =
        (combinedShooting roster sched ilP ilR pastDays remainingDays actual).fgm /
          (combinedShooting roster sched ilP ilR pastDays remainingDays actual).fga * 100) ∧
    ((combinedShooting roster sched ilP ilR pastDays remainingDays actual).fga = 0 →
      (projectTeamWithActuals roster sched ilP ilR pastDays remainingDays
          actual none).totals .fg = 0) ∧
    ((combinedShooting roster sched ilP ilR pastDays remainingDays actual).fta > 0 →
      (projectTeamWithActuals roster sched ilP ilR pastDays remainingDays
          actual none).totals .ft =
        (combinedShooting roster sched ilP ilR pastDays remainingDays actual).ftm /
          (combinedShooting roster sched ilP ilR pastDays remainingDays actual).fta * 100) ∧
    ((combinedShooting roster sched ilP ilR pastDays remainingDays actual).fta = 0 →
      (projectTeamWithActuals roster sched ilP ilR pastDays remainingDays
          actual none).totals .ft = 0) := by
  have hproj :
      (projectTeamWithActuals roster sched ilP ilR pastDays remainingDays
        actual none).totals =
      finalTotals
        (blendedCounting actual pastDays.length
          (calculate_daily_stats true ilP ilR sched (roster.map mkPlayerInfo)
            pastDays).stats
          (calculate_daily_stats false ilP ilR sched (roster.map mkPlayerInfo)
            remainingDays).stats 1)
        (combinedShooting roster sched ilP ilR pastDays remainingDays actual) := by
    unfold projectTeamWithActuals combinedShooting
    simp only [remainingScale]
  rw [hproj]
  exact finalTotals_fg_cases _ _

/-- C9: when the matchup record is missing or carries no opponent (a
playoff pairing not yet drawn), `predict_matchup` fails with the dedicated
`PlayoffWeekError` signal carrying `week or 0` — a constructor distinct
from generic failures — and returns no projection. -/
theorem playoff_week_distinct_signal (myTeamKey : String)
    (matchup : Option MatchupData) (week : Option Nat)
    (myRoster oppRoster : List RosterEntry) (sched : Schedule)
    (ilP ilR : String → Option Day) (pastDays remainingDays : List Day)
    (h : matchup = none ∨ ∃ m, matchup = some m ∧ m.opponent = none) :
    predict_matchup (some myTeamKey) matchup week myRoster oppRoster sched
        ilP ilR pastDays remainingDays =
      .error (.playoffWeek (week.getD 0)) ∧
    (∀ msg, PredictorError.playoffWeek (week.getD 0) ≠ .generic msg) ∧
    ∀ r, predict_matchup (some myTeamKey) matchup week myRoster oppRoster
        sched ilP ilR pastDays remainingDays ≠ .ok r := by
  have hmain : predict_matchup (some myTeamKey) matchup week myRoster
      oppRoster sched ilP ilR pastDays remainingDays =
      .error (.playoffWeek (week.getD 0)) := by
    rcases h with rfl | ⟨m, rfl, hop⟩
    · rfl
    · simp [predict_matchup, hop]
  refine ⟨hmain, fun msg hq => PredictorError.noConfusion hq, fun r hr => ?_⟩
  rw [hmain] at hr
  exact Except.noConfusion hr

/-- Shared computation for C10: when a stat map exposes no usable
makes/attempts pair and the per-game points value is zero (absent, falsy,
or unparseable entries read as such), the fallback estimates exactly 8
field-goal attempts and 3 free-throw attempts, with makes equal to
attempts times the map's decimal-normalized percentage when present and
times the defaults 0.45 / 0.75 only when it is absent. -/
theorem playerFgData_fallback (s : AvgStats)
    (hfg : s.fga = none ∨ s.fgm = none) (hft : s.fta = none ∨ s.ftm = none)
    (hpts : (s.counting .pts).getD 0 = 0) :
    playerFgData s =
      ⟨8 * normalizePct ((s.fgPct).getD 0.45), 8,
       3 * normalizePct ((s.ftPct).getD 0.75), 3⟩ := by
  have hpg : perGameStat s .pts = 0 := by
    unfold perGameStat
    rw [hpts]
    exact zero_div _
  have hnot : ¬ perGameStat s .pts > 0 := by
    rw [hpg]
    exact lt_irrefl 0
  unfold playerFgData
  rcases hA : s.fga with _ | av <;> rcases hM : s.fgm with _ | mv <;>
    rcases hT : s.fta with _ | tv <;> rcases hF : s.ftm with _ | fv <;>
    first
      | (exfalso
         rcases hfg with h | h
         · rw [hA] at h; exact Option.noConfusion h
         · rw [hM] at h; exact Option.noConfusion h)
      | (exfalso
         rcases hft with h | h
         · rw [hT] at h; exact Option.noConfusion h
         · rw [hF] at h; exact Option.noConfusion h)
      | simp [hpg, hnot]

/-- A counted player whose stat map exposes no makes/attempts and no
points, but does carry a field-goal percentage of 0.5. -/
def fallbackProbe : Player :=
  { player_key := "x1"
    team_abbr := "LAL"
    normalized_team := "LAL"
    roster_position := "PG"
    injury_factor := 1
    avg_stats :=
      { gp := none
        counting := fun _ => none
        fga := none
        fgm := none
        fta := none
        ftm := none
        fgPct := some 0.5
        ftPct := none
        isAverage := true }
    acquisition_date := none }

/-- C10, counterexample: for a counted zero-point player with no exposed
makes/attempts but a stat-map FG% of 0.5, the simulated day adds 8 * 0.5 =
4 estimated field-goal makes, not 8 * 0.45 = 3.6 as the claimed fixed
default would give. -/
theorem fallback_attempts_counterexample :
    (calculate_daily_stats false (fun _ => none) (fun _ => none)
        (fun _ => some ["LAL"]) [fallbackProbe] [0]).fgData.fgm = 4 ∧
    (4 : ℚ) ≠ 8 * 0.45 * fallbackProbe.injury_factor := by
  have hsel : dayPlayersToCount false (fun _ => none) (fun _ => none)
      (fun _ => some ["LAL"]) [fallbackProbe] 0 = [fallbackProbe] := by
    simp [dayPlayersToCount, passesDayFilters, wasOnIlOn, fallbackProbe,
      BENCH_POSITION, INACTIVE_POSITIONS, MAX_DAILY_STARTERS]
  have hfg : playerFgData fallbackProbe.avg_stats =
      ⟨8 * normalizePct 0.5, 8, 3 * normalizePct 0.75, 3⟩ :=
    playerFgData_fallback _ (Or.inl rfl) (Or.inl rfl) rfl
  have hinj : fallbackProbe.injury_factor = 1 := rfl
  constructor
  · simp only [calculate_daily_stats, hsel, countedFgData, playerFgContrib,
      scaleFgData, hfg, hinj, List.map_cons, List.map_nil,
      List.sum_cons, List.sum_nil]
    norm_num [normalizePct]
  · rw [hinj]
    norm_num

/-- C10, amended: for every counted player-day where the stat map exposes
no makes/attempts pair and the per-game points value is 0 (or missing /
unparseable), the simulation adds a fixed fallback of 8 estimated
field-goal attempts and 3 estimated free-throw attempts, scaled by the
injury probability; the estimated makes are attempts times the player's
decimal-normalized FG%/FT% from the stat map when present, falling back to
the defaults 0.45 / 0.75 only when the percentage is absent.  A
zero-scoring counted player therefore still moves the blended FG%/FT%. -/
theorem fallback_attempts_amended (p : Player)
    (hfg : p.avg_stats.fga = none ∨ p.avg_stats.fgm = none)
    (hft : p.avg_stats.fta = none ∨ p.avg_stats.ftm = none)
    (hpts : (p.avg_stats.counting .pts).getD 0 = 0) :
    playerFgContrib p =
      scaleFgData
        ⟨8 * normalizePct ((p.avg_stats.fgPct).getD 0.45), 8,
         3 * normalizePct ((p.avg_stats.ftPct).getD 0.75), 3⟩
        p.injury_factor := by
  unfold playerFgContrib
  rw [playerFgData_fallback p.avg_stats hfg hft hpts]

/-! ## Concrete witness fixtures -/

/-- A stat map with every entry missing. -/
def emptyAvg : AvgStats :=
  { gp := none
    counting := fun _ => none
    fga := none
    fgm := none
    fta := none
    ftm := none
    fgPct := none
    ftPct := none
    isAverage := true }

/-- Roster entry averaging 30 points per game, otherwise empty. -/
def ptsEntry : RosterEntry :=
  { player_key := "w1"
    team_abbr := "LAL"
    normalized_team := "LAL"
    roster_position := "PG"
    status := ""
    avg_stats :=
      { gp := none
        counting := fun c => if c = Cat.pts then some 30 else none
        fga := none
        fgm := none
        fta := none
        ftm := none
        fgPct := none
        ftPct := none
        isAverage := true }
    acquisition_date := none }

/-- The `player_info` record built from `ptsEntry`. -/
def ptsPlayer : Player :=
  { player_key := "w1"
    team_abbr := "LAL"
    normalized_team := "LAL"
    roster_position := "PG"
    injury_factor := 1
    avg_stats :=
      { gp := none
        counting := fun c => if c = Cat.pts then some 30 else none
        fga := none
        fgm := none
        fta := none
        ftm := none
        fgPct := none
        ftPct := none
        isAverage := true }
    acquisition_date := none }

/-- Schedule where only day 1 has games, played by LAL. -/
def wSched1 : Schedule := fun d => if d = 1 then some ["LAL"] else none

/-- Accumulated actuals of 120 points and no usable percentages. -/
def wActual1 : ActualStats :=
  { counting := fun c => if c = Cat.pts then 120 else 0
    fgPctRaw := 0
    ftPctRaw := 0 }

/-- C1 witness: actual accumulated PTS 120 plus a remaining-day simulated
contribution of 30 yields a final projected PTS of exactly 150. -/
theorem actuals_override_past_counting_witness :
    (projectTeamWithActuals [ptsEntry] wSched1 (fun _ => none) (fun _ => none)
        [0] [1] (some wActual1) none).totals .pts = 150 := by
  have h := actuals_override_past_counting [ptsEntry] wSched1 (fun _ => none)
    (fun _ => none) [0] [1] wActual1 .pts (by decide) (by decide)
  have hmk : [ptsEntry].map mkPlayerInfo = [ptsPlayer] := rfl
  rw [h, hmk]
  have hsel : dayPlayersToCount false (fun _ => none) (fun _ => none) wSched1
      [ptsPlayer] 1 = [ptsPlayer] := by
    simp [dayPlayersToCount, wSched1, passesDayFilters, wasOnIlOn, ptsPlayer,
      BENCH_POSITION, INACTIVE_POSITIONS, MAX_DAILY_STARTERS]
  have hpg : perGameStat ptsPlayer.avg_stats .pts = 30 := by
    norm_num [perGameStat, statDivisor, ptsPlayer]
  have hinj : ptsPlayer.injury_factor = 1 := rfl
  have hact : wActual1.counting .pts = 120 := rfl
  simp only [calculate_daily_stats, hsel, countedCountingStats, List.map_cons,
    List.map_nil, List.sum_cons, List.sum_nil, hpg, hinj, hact]
  norm_num

/-- Roster entry with per-game shooting 6-of-10 from the field and 1-of-2
from the line, otherwise empty. -/
def shooterEntry : RosterEntry :=
  { player_key := "w3"
    team_abbr := "LAL"
    normalized_team := "LAL"
    roster_position := "PG"
    status := ""
    avg_stats :=
      { gp := none
        counting := fun _ => none
        fga := some 10
        fgm := some 6
        fta := some 2
        ftm := some 1
        fgPct := none
        ftPct := none
        isAverage := true }
    acquisition_date := none }

/-- The `player_info` record built from `shooterEntry`. -/
def shooterPlayer : Player :=
  { player_key := "w3"
    team_abbr := "LAL"
    normalized_team := "LAL"
    roster_position := "PG"
    injury_factor := 1
    avg_stats :=
      { gp := none
        counting := fun _ => none
        fga := some 10
        fgm := some 6
        fta := some 2
        ftm := some 1
        fgPct := none
        ftPct := none
        isAverage := true }
    acquisition_date := none }

/-- Accumulated actuals of 84 points at FG% 0.5 (so estimated past
shooting is 20 of 40) and no usable free-throw percentage. -/
def wActual2 : ActualStats :=
  { counting := fun c => if c = Cat.pts then 84 else 0
    fgPctRaw := 0.5
    ftPctRaw := 0 }

/-- C2 witness: past-day estimated 20-of-40 plus remaining-day simulated
6-of-10 yields a final FG% of exactly (20+6)/(40+10) * 100 = 52. -/
theorem percentage_from_combined_witness :
    (projectTeamWithActuals [shooterEntry] wSched1 (fun _ => none)
        (fun _ => none) [0] [1] (some wActual2) none).totals .fg = 52 := by
  have hmk : [shooterEntry].map mkPlayerInfo = [shooterPlayer] := rfl
  have hsel : dayPlayersToCount false (fun _ => none) (fun _ => none) wSched1
      [shooterPlayer] 1 = [shooterPlayer] := by
    simp [dayPlayersToCount, wSched1, passesDayFilters, wasOnIlOn,
      shooterPlayer, BENCH_POSITION, INACTIVE_POSITIONS, MAX_DAILY_STARTERS]
  have hplayer : playerFgData shooterPlayer.avg_stats = ⟨6, 10, 1, 2⟩ := by
    norm_num [playerFgData, shooterPlayer, statDivisor]
  have hinj : shooterPlayer.injury_factor = 1 := rfl
  have hrem : (calculate_daily_stats false (fun _ => none) (fun _ => none)
      wSched1 [shooterPlayer] [1]).fgData = ⟨6, 10, 1, 2⟩ := by
    simp only [calculate_daily_stats, hsel, countedFgData, playerFgContrib,
      scaleFgData, hplayer, hinj, List.map_cons, List.map_nil, List.sum_cons,
      List.sum_nil]
    norm_num
  have hpastsel : dayPlayersToCount true (fun _ => none) (fun _ => none)
      wSched1 [shooterPlayer] 0 = [] := by
    simp [dayPlayersToCount, wSched1]
  have hpast : (calculate_daily_stats true (fun _ => none) (fun _ => none)
      wSched1 [shooterPlayer] [0]).fgData = ⟨0, 0, 0, 0⟩ := by
    simp [calculate_daily_stats, hpastsel, countedFgData]
  have hcomb : combinedShooting [shooterEntry] wSched1 (fun _ => none)
      (fun _ => none) [0] [1] (some wActual2) = ⟨26, 50, 1, 2⟩ := by
    rw [combinedShooting, hmk, hrem, hpast]
    norm_num [blendedShooting, estPastShooting, wActual2, addFgData,
      scaleFgData, normalizePct]
  have h := (percentage_from_combined_makes_attempts [shooterEntry] wSched1
    (fun _ => none) (fun _ => none) [0] [1] (some wActual2)).1
  rw [hcomb] at h
  rw [h (by norm_num)]
  norm_num

/-- C5 witness: when both category values are 0 the confidence is exactly
0.5. -/
theorem comparator_confidence_spec_witness :
    (compare_projections (fun _ => 0) (fun _ => 0)).2.2 .pts = 0.5 :=
  (comparator_confidence_spec (fun _ => 0) (fun _ => 0) .pts).2.1 ⟨rfl, rfl⟩

/-- C6 witness: dropping a day that is absent from the schedule map leaves
every accumulator unchanged. -/
theorem unknown_schedule_day_skipped_witness :
    calculate_daily_stats false (fun _ => none) (fun _ => none)
        (fun _ => none) [] ([] ++ 5 :: [7]) =
      calculate_daily_stats false (fun _ => none) (fun _ => none)
        (fun _ => none) [] ([] ++ [7]) :=
  unknown_schedule_day_skipped false (fun _ => none) (fun _ => none)
    (fun _ => none) [] [] [7] 5 (Or.inl rfl)

/-- A healthy starter whose IL placement (day 2, no removal) covers day 3. -/
def ilProbe : Player :=
  { player_key := "il1"
    team_abbr := "LAL"
    normalized_team := "LAL"
    roster_position := "PG"
    injury_factor := 1
    avg_stats := emptyAvg
    acquisition_date := none }

/-- C8 witness: a player placed on the IL on day 2 with no removal is not
counted on day 3 even in past-day mode with the team playing. -/
theorem il_player_never_counted_witness :
    ilProbe ∉ dayPlayersToCount true (fun _ => some 2) (fun _ => none)
        (fun _ => some ["LAL"]) [ilProbe] 3 :=
  il_player_never_counted true (fun _ => some 2) (fun _ => none)
    (fun _ => some ["LAL"]) [ilProbe] 3 ilProbe
    (Or.inl ⟨2, rfl, by decide, fun r hr => Option.noConfusion hr⟩)

/-- C9 witness: a matchup with no opponent yields exactly
`PlayoffWeekError` for week 5, not a projection and not a generic error. -/
theorem playoff_week_distinct_signal_witness :
    predict_matchup (some "t1") (some ⟨none, none, none⟩) (some 5) [] []
        (fun _ => none) (fun _ => none) (fun _ => none) [] [] =
      .error (.playoffWeek 5) :=
  (playoff_week_distinct_signal "t1" (some ⟨none, none, none⟩) (some 5) [] []
    (fun _ => none) (fun _ => none) (fun _ => none) [] []
    (Or.inr ⟨⟨none, none, none⟩, rfl, rfl⟩)).1

/-- C10 witness (amended): with no stat map at all the fallback adds 8
field-goal attempts at the default 0.45 and 3 free-throw attempts at the
default 0.75, scaled by a full injury factor. -/
theorem fallback_attempts_amended_witness :
    playerFgContrib ilProbe = ⟨8 * 0.45, 8, 3 * 0.75, 3⟩ := by
  have h := fallback_attempts_amended ilProbe (Or.inl rfl) (Or.inl rfl) rfl
  rw [h]
  norm_num [scaleFgData, normalizePct, emptyAvg, ilProbe]

end FantasyPredictor
